import Mathlib

/-!
Verification of the web-scraper MCP server (src/mcp-servers/web-scraper/server.js).

The four request handlers (`scrapePage`, `testReactApp`, `getPageInfo`,
`waitForElement`) drive one Playwright browser session each.  We embed them
shallowly: every call into the browser library is resolved through an
explicit environment (`PageModel` / `BrowserEnv`) that says, for this run,
which primitive operations succeed and which fail with which message.
Session accounting (`SessionWorld`) counts engine launches and closes, the
observable footprint of `browsers[t].launch()` and `browser.close()`.
-/

namespace WebScraper

/-- Renders a JS template-literal interpolation of a possibly-undefined
string, as in backtick strings of the source: `undefined` prints as the
text "undefined". -/
def jsStr : Option String → String
  | some s => s
  | none => "undefined"

/-- Result of one primitive page operation: `.ok` with its payload, or
`.error` with the thrown message (caught as `error.message` in the source). -/
abbrev PResult (α : Type) := Except String α

/-- Behaviour of the Playwright page object for one request: which calls
succeed, which throw, and with what payloads.  Field names follow the
methods used by the source (`page.click`, `page.fill`, `page.waitForSelector`,
`page.screenshot` + the fs write, `page.textContent`, `page.getAttribute`). -/
structure PageModel where
  click : Option String → Nat → PResult Unit
  fill : Option String → Option String → Nat → PResult Unit
  waitForSelector : Option String → Nat → PResult Unit
  screenshot : PResult String
  textContent : Option String → PResult String
  getAttribute : Option String → Option String → PResult String

/-- One action of a `test_react_app` request, as destructured at
server.js:272: `const { type, selector, value, timeout = 5000 } = action`. -/
structure Action where
  type : String
  selector : Option String := none
  value : Option String := none
  timeout : Option Nat := none
deriving Repr, DecidableEq

/-- The uniform catch-branch line of the per-action try/catch
(server.js:312): every action failure is rendered with this shape. -/
def failedLine (type : String) (selector : Option String) (msg : String) : String :=
  "❌ Failed " ++ type ++ " on " ++ jsStr selector ++ ": " ++ msg

/-- The try-block body of one iteration of the action loop: the switch of
server.js:275-310.  Each arm calls one page primitive and yields the line
to record; a throwing primitive propagates its error out of the switch;
the default arm records the unknown-type line without throwing. -/
def actionStep (page : PageModel) (action : Action) : PResult String :=
  let timeout := action.timeout.getD 5000
  if action.type = "click" then
    (page.click action.selector timeout).map
      (fun _ => "✅ Clicked: " ++ jsStr action.selector)
  else if action.type = "fill" then
    (page.fill action.selector action.value timeout).map
      (fun _ => "✅ Filled \"" ++ jsStr action.value ++ "\" into: " ++ jsStr action.selector)
  else if action.type = "wait" then
    (page.waitForSelector action.selector timeout).map
      (fun _ => "✅ Waited for: " ++ jsStr action.selector)
  else if action.type = "screenshot" then
    page.screenshot.map (fun path => "✅ Screenshot saved: " ++ path)
  else if action.type = "getText" then
    (page.textContent action.selector).map
      (fun t => "✅ Text from " ++ jsStr action.selector ++ ": \"" ++ t ++ "\"")
  else if action.type = "getAttribute" then
    (page.getAttribute action.selector action.value).map
      (fun a => "✅ Attribute \"" ++ jsStr action.value ++ "\" from " ++
        jsStr action.selector ++ ": \"" ++ a ++ "\"")
  else
    .ok ("❌ Unknown action type: " ++ action.type)

/-- One full iteration of the action loop, try/catch included
(server.js:274-313): the error of a throwing action is caught at the
action boundary and recorded as a `failedLine`.  This function is total:
no action outcome escapes its boundary. -/
def runAction (page : PageModel) (action : Action) : String :=
  match actionStep page action with
  | .ok line => line
  | .error e => failedLine action.type action.selector e

/-- Engine-start / engine-stop counters over one request: `launched` counts
successful `browsers[t].launch()` calls, `closed` counts `browser.close()`
calls.  Balanced release means `⟨1, 1⟩` after the request. -/
structure SessionWorld where
  launched : Nat
  closed : Nat
deriving Repr, DecidableEq

/-- A `<meta>` element as the `getPageInfo` evaluation reads it:
`meta.name` reflects the name attribute (empty string when absent);
`meta.property` is the value the expression `meta.property` yields
(`none` standing for undefined), and `meta.content` the content. -/
structure MetaEl where
  name : String := ""
  property : Option String := none
  content : String := ""
deriving Repr, DecidableEq

/-- A DOM element with its `tagName` (as the DOM reports it, so possibly
upper-case) and its text content. -/
structure DomElement where
  tagName : String
  textContent : String := ""
deriving Repr, DecidableEq

/-- The document state `page.evaluate` observes in `getPageInfo`:
the meta elements and the body elements in document order, plus the counts
the three counting queries return. -/
structure Dom where
  title : String := ""
  href : String := ""
  metas : List MetaEl := []
  elements : List DomElement := []
  linkCount : Nat := 0
  imageCount : Nat := 0
  formCount : Nat := 0
deriving Repr, DecidableEq

/-- The navigation-timing entry
`performance.getEntriesByType(navigation)[0]`.  The source indexes it
without a guard; it is modelled as present, as it is in all three
supported engines. -/
structure NavTiming where
  domContentLoadedEventStart : Int := 0
  domContentLoadedEventEnd : Int := 0
  loadEventStart : Int := 0
  loadEventEnd : Int := 0
deriving Repr, DecidableEq

/-- `document.querySelectorAll` for a comma-list of plain tag selectors:
the document-order elements whose tag matches one of the (lower-case)
tag names. -/
def querySelectorAll (dom : Dom) (tags : List String) : List DomElement :=
  dom.elements.filter (fun e => tags.contains e.tagName.toLower)

/-- Per-request behaviour of the browser library outside the page-primitive
calls, plus the data a successful page evaluation would see.  `launchFails`
and `newPageFails` carry the thrown message when `launch()` / `newPage()`
fault; `goto` resolves `page.goto(url, { waitUntil: networkidle })`;
`selTexts` resolves `page.$$(sel)` followed by reading each match's text;
`paintEntries` is `performance.getEntriesByType(paint)` as (name, startTime)
pairs; `loadTimeMs` is the measured `Date.now()` difference around the
navigation; `waitElapsedMs`, `isVisible` and `elementText` feed the
read-back of `waitForElement`. -/
structure BrowserEnv where
  launchFails : Option String := none
  newPageFails : Option String := none
  goto : String → PResult Unit := fun _ => .ok ()
  page : PageModel
  selTexts : String → PResult (List String) := fun _ => .ok []
  dom : Dom := {}
  navTiming : NavTiming := {}
  paintEntries : List (String × Int) := []
  loadTimeMs : Nat := 0
  waitElapsedMs : Nat := 0
  isVisible : String → Bool := fun _ => true
  elementText : String → String := fun _ => ""

/-- `testReactApp` (server.js:260-327).  Launch and `newPage` happen before
the try block; the try block navigates, records the navigation line, then
folds `runAction` over the actions; the finally block closes the browser.
Returns the session counters together with the `results` array (on the
non-throwing paths) or the propagated error. -/
def testReactApp (env : BrowserEnv) (url : String) (actions : List Action) :
    SessionWorld × Except String (List String) :=
  match env.launchFails with
  | some e => (⟨0, 0⟩, .error e)
  | none =>
    match env.newPageFails with
    | some e => (⟨1, 0⟩, .error e)
    | none =>
      match env.goto url with
      | .error e => (⟨1, 1⟩, .error e)
      | .ok _ =>
        (⟨1, 1⟩, .ok (("✅ Navigated to " ++ url) :: actions.map (runAction env.page)))

/-- A page on which every primitive succeeds, except that — as the
Playwright client does — `fill` rejects a missing value and `getAttribute`
rejects a missing attribute name. -/
def okPage : PageModel where
  click := fun _ _ => .ok ()
  fill := fun _ v _ =>
    match v with
    | some _ => .ok ()
    | none => .error "value: expected string, got undefined"
  waitForSelector := fun _ _ => .ok ()
  screenshot := .ok "/tmp/react-test-1.png"
  textContent := fun _ => .ok "hello"
  getAttribute := fun _ v =>
    match v with
    | some _ => .ok "attr"
    | none => .error "attribute name required"

/-- The lexical discriminant `waitFor.match(/^\d+$/)` of server.js:218:
true exactly for a non-empty string all of whose characters are ASCII
digits. -/
def isPureDigits (s : String) : Bool :=
  s.data ≠ [] && s.data.all Char.isDigit

/-- The wait actually performed by `scrapePage` for a given `waitFor`:
an unconditional elapse of the parsed millisecond count, or a selector
wait recording whether the selector appeared. -/
inductive WaitStep where
  | elapsed (ms : Nat)
  | selectorWait (sel : String) (ok : Bool)
deriving Repr, DecidableEq

/-- Arguments of `scrape_page` as destructured at server.js:208.  Note
there is no timeout argument in this operation. -/
structure ScrapeArgs where
  url : String
  selector : Option String := none
  browser : String := "chromium"
  waitFor : Option String := none
  screenshot : Bool := false
deriving Repr, DecidableEq

/-- The wait dispatch of `scrapePage` (server.js:217-223): skipped when
`waitFor` is absent or empty (JS truthiness); a pure-digit string elapses
`parseInt(waitFor)` milliseconds via `page.waitForTimeout` (always
succeeds); any other string runs `page.waitForSelector(waitFor,
\x7b timeout: 10000 \x7d)` with the hard-coded 10000 ms deadline. -/
def scrapeWaitStep (page : PageModel) (waitFor : Option String) :
    Option WaitStep × PResult Unit :=
  match waitFor with
  | none => (none, .ok ())
  | some w =>
    if w = "" then (none, .ok ())
    else if isPureDigits w then (some (.elapsed (w.toNat?.getD 0)), .ok ())
    else
      match page.waitForSelector (some w) 10000 with
      | .ok _ => (some (.selectorWait w true), .ok ())
      | .error e => (some (.selectorWait w false), .error e)

/-- The extraction phase of `scrapePage` (server.js:225-252), run after
navigation and the optional wait: with a selector, collect each match's
text joined by the separator; otherwise take the body text; then the
report line, plus the screenshot line when requested. -/
def scrapeExtract (env : BrowserEnv) (args : ScrapeArgs) :
    PResult (List String) :=
  let contentRes :=
    match args.selector with
    | some sel =>
      match env.selTexts sel with
      | .ok texts => Except.ok (String.intercalate "\n---\n" texts)
      | .error e => Except.error e
    | none => env.page.textContent (some "body")
  match contentRes with
  | .error e => .error e
  | .ok content =>
    let line := "Scraped content from " ++ args.url ++ ":\n\n" ++ content
    if args.screenshot then
      match env.page.screenshot with
      | .ok path => .ok [line, "Screenshot saved to: " ++ path]
      | .error e => .error e
    else
      .ok [line]

/-- Trace of one `scrape_page` request: session counters, the wait that
was performed (if any), and the report content or the propagated error. -/
structure ScrapeResult where
  world : SessionWorld
  waitStep : Option WaitStep
  output : Except String (List String)
deriving Repr

/-- `scrapePage` (server.js:207-258).  Launch and `newPage` precede the
try block; inside it: navigate, dispatch the wait, extract; the finally
block closes the browser. -/
def scrapePage (env : BrowserEnv) (args : ScrapeArgs) : ScrapeResult :=
  match env.launchFails with
  | some e => ⟨⟨0, 0⟩, none, .error e⟩
  | none =>
    match env.newPageFails with
    | some e => ⟨⟨1, 0⟩, none, .error e⟩
    | none =>
      match env.goto args.url with
      | .error e => ⟨⟨1, 1⟩, none, .error e⟩
      | .ok _ =>
        match scrapeWaitStep env.page args.waitFor with
        | (ws, .error e) => ⟨⟨1, 1⟩, ws, .error e⟩
        | (ws, .ok _) => ⟨⟨1, 1⟩, ws, scrapeExtract env args⟩

/-- Arguments of `wait_for_element` as destructured at server.js:404:
the timeout defaults to 10000 ms. -/
structure WaitForElementArgs where
  url : String
  selector : String
  timeout : Option Nat := none
  browser : String := "chromium"
deriving Repr, DecidableEq

/-- Renders a JS boolean interpolation. -/
def jsBool (b : Bool) : String :=
  if b then "true" else "false"

/-- `waitForElement` (server.js:403-434).  After navigation it runs
`page.waitForSelector(selector, \x7b timeout \x7d)` — the selector string is
always treated as a locator, with no lexical discrimination — then reads
back the element text and visibility. -/
def waitForElement (env : BrowserEnv) (args : WaitForElementArgs) :
    SessionWorld × Except String String :=
  match env.launchFails with
  | some e => (⟨0, 0⟩, .error e)
  | none =>
    match env.newPageFails with
    | some e => (⟨1, 0⟩, .error e)
    | none =>
      match env.goto args.url with
      | .error e => (⟨1, 1⟩, .error e)
      | .ok _ =>
        match env.page.waitForSelector (some args.selector) (args.timeout.getD 10000) with
        | .error e => (⟨1, 1⟩, .error e)
        | .ok _ =>
          (⟨1, 1⟩, .ok ("✅ Element found: " ++ args.selector ++
            "\nWait time: " ++ toString env.waitElapsedMs ++ "ms\nVisible: " ++
            jsBool (env.isVisible args.selector) ++ "\nText content: \"" ++
            env.elementText args.selector ++ "\""))

/-- One entry of the meta-tag list built at server.js:343-346. -/
structure MetaInfo where
  name : String
  content : String
deriving Repr, DecidableEq

/-- One entry of the headings list built at server.js:347-350. -/
structure HeadingInfo where
  tag : String
  text : String
deriving Repr, DecidableEq

/-- The structured object returned by the `page.evaluate` of
server.js:340-354. -/
structure PageInfoEval where
  title : String
  url : String
  metaTags : List MetaInfo
  headings : List HeadingInfo
  links : Nat
  images : Nat
  forms : Nat
deriving Repr, DecidableEq

/-- The JS expression `meta.name || meta.property` followed by the
truthiness filter `.filter(meta => meta.name)`: the surviving name, or
`none` when both the name attribute is empty and the property is
undefined or empty. -/
def jsMetaName (m : MetaEl) : Option String :=
  if m.name ≠ "" then some m.name
  else
    match m.property with
    | some p => if p ≠ "" then some p else none
    | none => none

/-- The `page.evaluate` body of `getPageInfo` (server.js:340-354): title,
href, the filtered meta-tag pairs, the `h1, h2, h3` headings with
lower-cased tag and trimmed text, and the three element counts. -/
def evalPageInfo (dom : Dom) : PageInfoEval where
  title := dom.title
  url := dom.href
  metaTags := dom.metas.filterMap
    (fun m => (jsMetaName m).map (fun n => ⟨n, m.content⟩))
  headings := (querySelectorAll dom ["h1", "h2", "h3"]).map
    (fun h => ⟨h.tagName.toLower, h.textContent.trim⟩)
  links := dom.linkCount
  images := dom.imageCount
  forms := dom.formCount

/-- The metrics object of the second `page.evaluate` (server.js:358-366):
differences over the navigation-timing entry, and the optional start
times of the two paint entries. -/
structure PerfMetrics where
  domContentLoaded : Int
  loadComplete : Int
  firstPaint : Option Int
  firstContentfulPaint : Option Int
deriving Repr, DecidableEq

/-- `computeMetrics` resolves the second evaluate against the environment:
`find` over the paint entries yields `none` when the engine reports no
entry of that name. -/
def computeMetrics (env : BrowserEnv) : PerfMetrics where
  domContentLoaded :=
    env.navTiming.domContentLoadedEventEnd - env.navTiming.domContentLoadedEventStart
  loadComplete := env.navTiming.loadEventEnd - env.navTiming.loadEventStart
  firstPaint := (env.paintEntries.find? (fun p => p.1 == "first-paint")).map (·.2)
  firstContentfulPaint :=
    (env.paintEntries.find? (fun p => p.1 == "first-contentful-paint")).map (·.2)

/-- The JS interpolation `metric || N/A`: undefined — and, by JS
falsiness, a zero value — prints as "N/A". -/
def jsOrNA : Option Int → String
  | none => "N/A"
  | some v => if v = 0 then "N/A" else toString v

/-- The `performanceInfo` template literal of server.js:368-373. -/
def mkPerfInfo (loadTime : Nat) (m : PerfMetrics) : String :=
  "\n\nPerformance Metrics:\n- Page Load Time: " ++ toString loadTime ++
  "ms\n- DOM Content Loaded: " ++ toString m.domContentLoaded ++
  "ms\n- Load Complete: " ++ toString m.loadComplete ++
  "ms\n- First Paint: " ++ jsOrNA m.firstPaint ++
  "ms\n- First Contentful Paint: " ++ jsOrNA m.firstContentfulPaint ++ "ms"

/-- The response text of `getPageInfo` (server.js:380-394); the
performance section is appended verbatim (empty when not requested). -/
def mkPageInfoText (url : String) (info : PageInfoEval) (performanceInfo : String) : String :=
  "Page Information for " ++ url ++ ":\n\nTitle: " ++ info.title ++
  "\nURL: " ++ info.url ++ "\n\nMeta Tags:\n" ++
  String.intercalate "\n"
    (info.metaTags.map (fun m => "- " ++ m.name ++ ": " ++ m.content)) ++
  "\n\nHeadings:\n" ++
  String.intercalate "\n"
    (info.headings.map (fun h => "- " ++ h.tag.toUpper ++ ": " ++ h.text)) ++
  "\n\nPage Elements:\n- Links: " ++ toString info.links ++
  "\n- Images: " ++ toString info.images ++
  "\n- Forms: " ++ toString info.forms ++ performanceInfo

/-- Arguments of `get_page_info` as destructured at server.js:330. -/
structure PageInfoArgs where
  url : String
  browser : String := "chromium"
  includePerformance : Bool := false
deriving Repr, DecidableEq

/-- The report of one successful `get_page_info` request: the evaluated
info object, the `performanceInfo` string variable, and the final text. -/
structure PageInfoReport where
  info : PageInfoEval
  performanceInfo : String
  text : String
deriving Repr, DecidableEq

/-- `getPageInfo` (server.js:329-401).  Launch and `newPage` precede the
try block; inside it: timed navigation, the structural evaluate, the
optional performance evaluate and template, then the response text; the
finally block closes the browser. -/
def getPageInfo (env : BrowserEnv) (args : PageInfoArgs) :
    SessionWorld × Except String PageInfoReport :=
  match env.launchFails with
  | some e => (⟨0, 0⟩, .error e)
  | none =>
    match env.newPageFails with
    | some e => (⟨1, 0⟩, .error e)
    | none =>
      match env.goto args.url with
      | .error e => (⟨1, 1⟩, .error e)
      | .ok _ =>
        let info := evalPageInfo env.dom
        let performanceInfo :=
          if args.includePerformance then mkPerfInfo env.loadTimeMs (computeMetrics env)
          else ""
        (⟨1, 1⟩, .ok ⟨info, performanceInfo, mkPageInfoText args.url info performanceInfo⟩)

/-! ## Concrete environments used by witnesses and counterexamples -/

/-- An environment in which launch, page creation and navigation all
succeed, over `okPage`. -/
def envOk : BrowserEnv := { page := okPage }

/-- A page on which clicking `#missing` throws (element not found) and
everything else behaves as `okPage`. -/
def pageMissing : PageModel :=
  { okPage with
    click := fun s _ =>
      if s = some "#missing" then
        .error "Timeout 5000ms exceeded waiting for selector \"#missing\""
      else .ok () }

/-- `envOk` with `pageMissing`. -/
def envMissing : BrowserEnv := { page := pageMissing }

/-- A fixed three-action list: a click that succeeds, a click on
`#missing` that fails, and a text read that succeeds. -/
def actsMissing : List Action :=
  [{ type := "click", selector := some "#login" },
   { type := "click", selector := some "#missing" },
   { type := "getText", selector := some "#status" }]

/-! ## C1: run-action-sequence report length -/

/-- C1: for every action list of length N, when launch, page creation and
navigation succeed, `testReactApp` returns exactly N + 1 outcome lines —
the successful-navigation line followed by one line per action — no
matter how many individual actions fail (the per-action outcomes are
whatever `runAction` yields, success or failure). -/
theorem c1_report_length (env : BrowserEnv) (url : String) (actions : List Action)
    (hl : env.launchFails = none) (hp : env.newPageFails = none)
    (hg : env.goto url = .ok ()) :
    ∃ outcomes : List String,
      testReactApp env url actions = (⟨1, 1⟩, .ok outcomes) ∧
      outcomes.length = actions.length + 1 ∧
      outcomes.get? 0 = some ("✅ Navigated to " ++ url) ∧
      ∀ j : Nat, outcomes.get? (j + 1) = (actions.get? j).map (runAction env.page) := by
  refine ⟨("✅ Navigated to " ++ url) :: actions.map (runAction env.page), ?_, ?_, ?_, ?_⟩
  · simp [testReactApp, hl, hp, hg]
  · simp
  · rfl
  · intro j
    simp [List.get?_map]

/-- C1 witness: a concrete three-action request (one of whose actions
fails) produces exactly four outcome lines. -/
theorem c1_report_length_w :
    envMissing.launchFails = none ∧ envMissing.newPageFails = none ∧
    envMissing.goto "http://localhost:3000" = .ok () ∧
    (∃ outcomes : List String,
      testReactApp envMissing "http://localhost:3000" actsMissing = (⟨1, 1⟩, .ok outcomes) ∧
      outcomes.length = actsMissing.length + 1 ∧
      outcomes.get? 0 = some ("✅ Navigated to " ++ "http://localhost:3000") ∧
      ∀ j : Nat, outcomes.get? (j + 1) =
        (actsMissing.get? j).map (runAction envMissing.page)) :=
  ⟨rfl, rfl, rfl,
    c1_report_length envMissing "http://localhost:3000" actsMissing rfl rfl rfl⟩

/-! ## C2: per-action failure isolation -/

/-- C2: when the action at position i throws (its page primitive fails
with message e), the failure is caught at the action boundary and recorded
as the failed line carrying e at report position i + 1, and every action —
in particular every action after i — is still executed and recorded in
input order: report entry j + 1 is exactly `runAction` of action j, for
every j. -/
theorem c2_failure_isolated (env : BrowserEnv) (url : String)
    (actions : List Action) (i : Nat) (a : Action) (e : String)
    (hl : env.launchFails = none) (hp : env.newPageFails = none)
    (hg : env.goto url = .ok ())
    (ha : actions.get? i = some a)
    (hfail : actionStep env.page a = .error e) :
    ∃ outcomes : List String,
      testReactApp env url actions = (⟨1, 1⟩, .ok outcomes) ∧
      outcomes.length = actions.length + 1 ∧
      outcomes.get? (i + 1) = some (failedLine a.type a.selector e) ∧
      ∀ j : Nat, outcomes.get? (j + 1) = (actions.get? j).map (runAction env.page) := by
  refine ⟨("✅ Navigated to " ++ url) :: actions.map (runAction env.page), ?_, ?_, ?_, ?_⟩
  · simp [testReactApp, hl, hp, hg]
  · simp
  · show (actions.map (runAction env.page)).get? i = _
    rw [List.get?_map, ha]
    simp [runAction, hfail]
  · intro j
    simp [List.get?_map]

/-- C2 witness: in the concrete three-action request, the failing click at
position 1 is recorded as a failed line at report position 2 and the
getText at position 2 is still recorded at report position 3. -/
theorem c2_failure_isolated_w :
    envMissing.launchFails = none ∧ envMissing.newPageFails = none ∧
    envMissing.goto "http://localhost:3000" = .ok () ∧
    actsMissing.get? 1 = some { type := "click", selector := some "#missing" } ∧
    actionStep envMissing.page { type := "click", selector := some "#missing" } =
      .error "Timeout 5000ms exceeded waiting for selector \"#missing\"" ∧
    (∃ outcomes : List String,
      testReactApp envMissing "http://localhost:3000" actsMissing = (⟨1, 1⟩, .ok outcomes) ∧
      outcomes.length = actsMissing.length + 1 ∧
      outcomes.get? (1 + 1) = some (failedLine
        (Action.type { type := "click", selector := some "#missing" })
        (Action.selector { type := "click", selector := some "#missing" })
        "Timeout 5000ms exceeded waiting for selector \"#missing\"") ∧
      ∀ j : Nat, outcomes.get? (j + 1) =
        (actsMissing.get? j).map (runAction envMissing.page)) :=
  ⟨rfl, rfl, rfl, rfl, rfl,
    c2_failure_isolated envMissing "http://localhost:3000" actsMissing 1
      { type := "click", selector := some "#missing" }
      "Timeout 5000ms exceeded waiting for selector \"#missing\""
      rfl rfl rfl rfl rfl⟩

/-! ## C7: unknown action kinds -/

/-- An action whose kind is none of the six known kinds falls through to
the default arm of the switch, which throws nothing and yields the
unknown-type line. -/
theorem actionStep_unknown (page : PageModel) (a : Action)
    (h : a.type ∉ ["click", "fill", "wait", "screenshot", "getText", "getAttribute"]) :
    actionStep page a = .ok ("❌ Unknown action type: " ++ a.type) := by
  simp only [List.mem_cons, List.not_mem_nil, or_false, not_or] at h
  obtain ⟨h1, h2, h3, h4, h5, h6⟩ := h
  simp [actionStep, h1, h2, h3, h4, h5, h6]

/-- C7: an action whose kind is not one of click, fill, wait, screenshot,
getText, getAttribute is recorded as the failed unknown-type line at its
position, and the remaining actions still produce their own entries (one
entry per action, in input order). -/
theorem c7_unknown_action (env : BrowserEnv) (url : String)
    (actions : List Action) (i : Nat) (a : Action)
    (hl : env.launchFails = none) (hp : env.newPageFails = none)
    (hg : env.goto url = .ok ())
    (ha : actions.get? i = some a)
    (hunk : a.type ∉ ["click", "fill", "wait", "screenshot", "getText", "getAttribute"]) :
    ∃ outcomes : List String,
      testReactApp env url actions = (⟨1, 1⟩, .ok outcomes) ∧
      outcomes.length = actions.length + 1 ∧
      outcomes.get? (i + 1) = some ("❌ Unknown action type: " ++ a.type) ∧
      ∀ j : Nat, outcomes.get? (j + 1) = (actions.get? j).map (runAction env.page) := by
  refine ⟨("✅ Navigated to " ++ url) :: actions.map (runAction env.page), ?_, ?_, ?_, ?_⟩
  · simp [testReactApp, hl, hp, hg]
  · simp
  · show (actions.map (runAction env.page)).get? i = _
    rw [List.get?_map, ha]
    simp [runAction, actionStep_unknown env.page a hunk]
  · intro j
    simp [List.get?_map]

/-- A two-action list whose first action has the unknown kind "hover". -/
def actsUnknown : List Action :=
  [{ type := "hover", selector := some "#menu" },
   { type := "getText", selector := some "#status" }]

/-- C7 witness: a concrete request with an unknown "hover" action records
the unknown-type line at its position and still records the following
getText action. -/
theorem c7_unknown_action_w :
    envOk.launchFails = none ∧ envOk.newPageFails = none ∧
    envOk.goto "http://localhost:3000" = .ok () ∧
    actsUnknown.get? 0 = some { type := "hover", selector := some "#menu" } ∧
    ({ type := "hover", selector := some "#menu" } : Action).type ∉
      ["click", "fill", "wait", "screenshot", "getText", "getAttribute"] ∧
    (∃ outcomes : List String,
      testReactApp envOk "http://localhost:3000" actsUnknown = (⟨1, 1⟩, .ok outcomes) ∧
      outcomes.length = actsUnknown.length + 1 ∧
      outcomes.get? (0 + 1) = some ("❌ Unknown action type: " ++
        Action.type { type := "hover", selector := some "#menu" }) ∧
      ∀ j : Nat, outcomes.get? (j + 1) =
        (actsUnknown.get? j).map (runAction envOk.page)) :=
  ⟨rfl, rfl, rfl, rfl, by decide,
    c7_unknown_action envOk "http://localhost:3000" actsUnknown 0
      { type := "hover", selector := some "#menu" }
      rfl rfl rfl rfl (by decide)⟩

/-! ## C4: fill without value -/

/-- A single fill action with no `value` field. -/
def actsFillNoValue : List Action :=
  [{ type := "fill", selector := some "#user" }]

/-- C4 counterexample: a `test_react_app` request containing a fill action
with no value does NOT fail with an argument error before session
acquisition: a session is created (launched = 1), navigation runs, and the
request returns an ordinary report in which the fill is a failed action
outcome. -/
theorem c4_cx :
    (testReactApp envOk "http://localhost:3000" actsFillNoValue).1.launched = 1 ∧
    (testReactApp envOk "http://localhost:3000" actsFillNoValue).2 =
      .ok ["✅ Navigated to http://localhost:3000",
           "❌ Failed fill on #user: value: expected string, got undefined"] :=
  ⟨rfl, rfl⟩

/-- C4 (amended): the code performs no argument validation before session
acquisition.  For every request containing a fill action whose value is
missing, a session is still acquired whenever the engine launches; and
when navigation succeeds and the page layer rejects the missing value
(as the automation library does), the fill is recorded as a failed
outcome at its position and the request still returns a full report. -/
theorem c4_no_prevalidation (env : BrowserEnv) (url : String)
    (actions : List Action) (i : Nat) (a : Action) (e : String)
    (hl : env.launchFails = none)
    (ha : actions.get? i = some a) (hfill : a.type = "fill") (hv : a.value = none) :
    (testReactApp env url actions).1.launched = 1 ∧
    (env.newPageFails = none → env.goto url = .ok () →
      env.page.fill a.selector none (a.timeout.getD 5000) = .error e →
      ∃ outcomes : List String,
        testReactApp env url actions = (⟨1, 1⟩, .ok outcomes) ∧
        outcomes.length = actions.length + 1 ∧
        outcomes.get? (i + 1) = some (failedLine a.type a.selector e)) := by
  constructor
  · unfold testReactApp
    rw [hl]
    cases hnp : env.newPageFails with
    | some e2 => rfl
    | none =>
      cases hgo : env.goto url with
      | error e2 => rfl
      | ok u => rfl
  · intro hp hg hferr
    have hfail : actionStep env.page a = .error e := by
      simp [actionStep, hfill, hv, hferr, Except.map]
    refine ⟨("✅ Navigated to " ++ url) :: actions.map (runAction env.page), ?_, ?_, ?_⟩
    · simp [testReactApp, hl, hp, hg]
    · simp
    · show (actions.map (runAction env.page)).get? i = _
      rw [List.get?_map, ha]
      simp [runAction, hfail]

/-- C4 witness: at the concrete fill-without-value request over `envOk`,
the session is acquired and the failed fill outcome sits at report
position 1. -/
theorem c4_no_prevalidation_w :
    envOk.launchFails = none ∧
    actsFillNoValue.get? 0 = some { type := "fill", selector := some "#user" } ∧
    (Action.type { type := "fill", selector := some "#user" } : String) = "fill" ∧
    (Action.value { type := "fill", selector := some "#user" } : Option String) = none ∧
    ((testReactApp envOk "http://localhost:3000" actsFillNoValue).1.launched = 1 ∧
     (envOk.newPageFails = none → envOk.goto "http://localhost:3000" = .ok () →
      envOk.page.fill (Action.selector { type := "fill", selector := some "#user" }) none
        ((Action.timeout { type := "fill", selector := some "#user" }).getD 5000) =
          .error "value: expected string, got undefined" →
      ∃ outcomes : List String,
        testReactApp envOk "http://localhost:3000" actsFillNoValue = (⟨1, 1⟩, .ok outcomes) ∧
        outcomes.length = actsFillNoValue.length + 1 ∧
        outcomes.get? (0 + 1) = some (failedLine
          (Action.type { type := "fill", selector := some "#user" })
          (Action.selector { type := "fill", selector := some "#user" })
          "value: expected string, got undefined"))) :=
  ⟨rfl, rfl, rfl, rfl,
    c4_no_prevalidation envOk "http://localhost:3000" actsFillNoValue 0
      { type := "fill", selector := some "#user" }
      "value: expected string, got undefined" rfl rfl rfl rfl⟩

/-! ## C3: session release on every exit path -/

/-- An environment in which `newPage` faults after a successful launch
(for example, the browser process crashed between the two calls). -/
def envPageFault : BrowserEnv :=
  { page := okPage,
    newPageFails := some "browserContext.newPage: Target closed" }

/-- An environment in which navigation faults. -/
def envGotoFault : BrowserEnv :=
  { page := okPage,
    goto := fun _ => .error "page.goto: net::ERR_CONNECTION_REFUSED" }

/-- C3: the code violates the release-exactly-once contract on the
page-creation exit path.  In all four operations `browser.newPage()` is
called before the try/finally, so when it faults the launched browser is
never closed — the counters read launched = 1, closed = 0.  On the exit
paths inside the try block (navigation fault, per-action failures) the
finally does close the session (counters 1, 1). -/
theorem c3_session_leak_on_page_creation :
    (testReactApp envPageFault "http://localhost:3000" actsMissing).1 = ⟨1, 0⟩ ∧
    (scrapePage envPageFault { url := "http://localhost:3000" }).world = ⟨1, 0⟩ ∧
    (getPageInfo envPageFault { url := "http://localhost:3000" }).1 = ⟨1, 0⟩ ∧
    (waitForElement envPageFault { url := "http://localhost:3000", selector := "#app" }).1 =
      ⟨1, 0⟩ ∧
    (testReactApp envGotoFault "http://localhost:3000" actsMissing).1 = ⟨1, 1⟩ ∧
    (testReactApp envMissing "http://localhost:3000" actsMissing).1 = ⟨1, 1⟩ :=
  ⟨rfl, rfl, rfl, rfl, rfl, rfl⟩

/-! ## C5: wait_for_element with a pure-digit selector -/

/-- A page on which no selector wait ever succeeds: every element is
absent and every wait times out at its deadline. -/
def pageNoElements : PageModel :=
  { okPage with
    waitForSelector := fun s t =>
      .error ("Timeout " ++ toString t ++ "ms exceeded waiting for selector \"" ++
        jsStr s ++ "\"") }

/-- `envOk` over `pageNoElements`. -/
def envNoElements : BrowserEnv := { page := pageNoElements }

/-- C5 counterexample: a `wait_for_element` request whose selector is the
pure-digit string "2000" is NOT treated as a duration: against a page
with no matching element the operation fails with the selector-timeout
error instead of succeeding by elapsing. -/
theorem c5_cx :
    isPureDigits "2000" = true ∧
    (waitForElement envNoElements { url := "http://localhost:3000", selector := "2000" }).2 =
      .error "Timeout 10000ms exceeded waiting for selector \"2000\"" :=
  ⟨rfl, rfl⟩

/-- C5 (amended): `waitForElement` performs no lexical discrimination on
its selector — a pure-digit string is passed to the locator wait like any
other selector (with the 10000 ms default deadline), and the operation
fails whenever that wait fails.  The digit-string-as-duration dispatch
exists only in the wait handling of `scrapePage`, where the same string
would elapse as a duration. -/
theorem c5_digit_selector_is_locator (env : BrowserEnv)
    (args : WaitForElementArgs) (e : String)
    (hd : isPureDigits args.selector = true)
    (hl : env.launchFails = none) (hp : env.newPageFails = none)
    (hg : env.goto args.url = .ok ())
    (hw : env.page.waitForSelector (some args.selector) (args.timeout.getD 10000) =
      .error e) :
    (waitForElement env args).2 = .error e ∧
    scrapeWaitStep env.page (some args.selector) =
      (some (.elapsed (args.selector.toNat?.getD 0)), .ok ()) := by
  constructor
  · simp [waitForElement, hl, hp, hg, hw]
  · have hne : args.selector ≠ "" := by
      intro h0
      rw [h0] at hd
      simp [isPureDigits] at hd
    simp [scrapeWaitStep, hne, hd]

/-- C5 witness: the amended statement at the concrete "2000" request over
the element-free page. -/
theorem c5_digit_selector_is_locator_w :
    isPureDigits (WaitForElementArgs.selector
      { url := "http://localhost:3000", selector := "2000" }) = true ∧
    envNoElements.launchFails = none ∧ envNoElements.newPageFails = none ∧
    envNoElements.goto "http://localhost:3000" = .ok () ∧
    envNoElements.page.waitForSelector (some "2000")
      ((WaitForElementArgs.timeout { url := "http://localhost:3000", selector := "2000" }).getD 10000) =
      .error "Timeout 10000ms exceeded waiting for selector \"2000\"" ∧
    ((waitForElement envNoElements { url := "http://localhost:3000", selector := "2000" }).2 =
      .error "Timeout 10000ms exceeded waiting for selector \"2000\"" ∧
     scrapeWaitStep envNoElements.page
       (some (WaitForElementArgs.selector { url := "http://localhost:3000", selector := "2000" })) =
       (some (.elapsed ((WaitForElementArgs.selector
         { url := "http://localhost:3000", selector := "2000" }).toNat?.getD 0)), .ok ())) :=
  ⟨rfl, rfl, rfl, rfl, rfl,
    c5_digit_selector_is_locator envNoElements
      { url := "http://localhost:3000", selector := "2000" }
      "Timeout 10000ms exceeded waiting for selector \"2000\"" rfl rfl rfl rfl rfl⟩

/-! ## C6: scrape_page with a pure-digit waitFor -/

/-- C6: a `scrape_page` request whose `waitFor` is a pure-digit string
always performs the unconditional duration wait of `parseInt(waitFor)`
milliseconds before extraction, independent of the page contents, and
that wait never fails: the request outcome is exactly the outcome of the
extraction phase. -/
theorem c6_digit_wait_unconditional (env : BrowserEnv) (args : ScrapeArgs) (w : String)
    (hw : args.waitFor = some w) (hd : isPureDigits w = true)
    (hl : env.launchFails = none) (hp : env.newPageFails = none)
    (hg : env.goto args.url = .ok ()) :
    scrapePage env args = ⟨⟨1, 1⟩, some (.elapsed (w.toNat?.getD 0)), scrapeExtract env args⟩ := by
  have hne : w ≠ "" := by
    intro h0
    rw [h0] at hd
    simp [isPureDigits] at hd
  simp [scrapePage, hl, hp, hg, hw, scrapeWaitStep, hne, hd]

/-- The `scrape_page` request of the spec scenario: `waitFor = "2000"`. -/
def scrapeArgs2000 : ScrapeArgs := { url := "http://localhost:3000", waitFor := some "2000" }

/-- C6 witness: the scenario request waits 2000 ms (as parsed from the
string) and returns the extraction outcome. -/
theorem c6_digit_wait_unconditional_w :
    scrapeArgs2000.waitFor = some "2000" ∧
    isPureDigits "2000" = true ∧
    envOk.launchFails = none ∧ envOk.newPageFails = none ∧
    envOk.goto scrapeArgs2000.url = .ok () ∧
    scrapePage envOk scrapeArgs2000 =
      ⟨⟨1, 1⟩, some (.elapsed ("2000".toNat?.getD 0)), scrapeExtract envOk scrapeArgs2000⟩ :=
  ⟨rfl, by decide, rfl, rfl, rfl,
    c6_digit_wait_unconditional envOk scrapeArgs2000 "2000" rfl (by decide) rfl rfl rfl⟩

/-! ## C9: fixed 10000 ms deadline for the scrape selector wait -/

/-- C9: for a non-digit `waitFor`, the selector wait of `scrapePage` runs
against the hard-coded 10000 ms deadline: replacing the page's
`waitForSelector` by any function that agrees with it at deadline 10000
leaves the whole request outcome unchanged — no `scrape_page` argument
(the operation has no timeout parameter) and no wait behaviour at any
other deadline can influence the result. -/
theorem c9_fixed_scrape_deadline (env : BrowserEnv) (args : ScrapeArgs) (w : String)
    (f : Option String → Nat → PResult Unit)
    (hw : args.waitFor = some w) (hne : w ≠ "") (hd : isPureDigits w = false)
    (hf : f (some w) 10000 = env.page.waitForSelector (some w) 10000) :
    scrapePage { env with page := { env.page with waitForSelector := f } } args =
      scrapePage env args := by
  have hext : scrapeExtract { env with page := { env.page with waitForSelector := f } } args =
      scrapeExtract env args := rfl
  have hwait : scrapeWaitStep { env.page with waitForSelector := f } args.waitFor =
      scrapeWaitStep env.page args.waitFor := by
    rw [hw]
    simp only [scrapeWaitStep, hd, if_neg hne, Bool.false_eq_true, if_false]
    rw [hf]
  unfold scrapePage
  rw [hwait, hext]

/-- A page whose selector wait times out exactly at the 10000 ms deadline
and succeeds at any other deadline. -/
def pageDeadline : PageModel :=
  { okPage with
    waitForSelector := fun _ t =>
      if t = 10000 then .error "Timeout 10000ms exceeded" else .ok () }

/-- `envOk` over `pageDeadline`. -/
def envDeadline : BrowserEnv := { page := pageDeadline }

/-- A wait behaviour that fails at every deadline; it agrees with
`pageDeadline` at 10000 and differs from it everywhere else. -/
def waitAlwaysFails : Option String → Nat → PResult Unit :=
  fun _ _ => .error "Timeout 10000ms exceeded"

/-- C9 witness: swapping in `waitAlwaysFails` (which differs from the
page at every deadline except the hard-coded 10000) does not change the
outcome of a concrete non-digit-wait scrape request. -/
theorem c9_fixed_scrape_deadline_w :
    (ScrapeArgs.waitFor { url := "http://localhost:3000", waitFor := some "#app" }) =
      some "#app" ∧
    "#app" ≠ "" ∧
    isPureDigits "#app" = false ∧
    waitAlwaysFails (some "#app") 10000 =
      envDeadline.page.waitForSelector (some "#app") 10000 ∧
    scrapePage { envDeadline with page :=
        { envDeadline.page with waitForSelector := waitAlwaysFails } }
      { url := "http://localhost:3000", waitFor := some "#app" } =
      scrapePage envDeadline { url := "http://localhost:3000", waitFor := some "#app" } :=
  ⟨rfl, by decide, by decide, rfl,
    c9_fixed_scrape_deadline envDeadline
      { url := "http://localhost:3000", waitFor := some "#app" } "#app"
      waitAlwaysFails rfl (by decide) (by decide) rfl⟩

/-! ## C8: optional performance metrics -/

/-- C8: with `includePerformance` false the report carries no performance
section at all (`performanceInfo` is the empty string and the text is the
bare structural report); with `includePerformance` true and neither paint
entry reported by the browser, the request still succeeds and both paint
metrics render as the absent value "N/A". -/
theorem c8_performance_optional (env : BrowserEnv) (args : PageInfoArgs)
    (hl : env.launchFails = none) (hp : env.newPageFails = none)
    (hg : env.goto args.url = .ok ()) :
    (args.includePerformance = false →
      getPageInfo env args = (⟨1, 1⟩, .ok ⟨evalPageInfo env.dom, "",
        mkPageInfoText args.url (evalPageInfo env.dom) ""⟩)) ∧
    (args.includePerformance = true →
      env.paintEntries.find? (fun p => p.1 == "first-paint") = none →
      env.paintEntries.find? (fun p => p.1 == "first-contentful-paint") = none →
      ∃ r : PageInfoReport, getPageInfo env args = (⟨1, 1⟩, .ok r) ∧
        r.performanceInfo =
          "\n\nPerformance Metrics:\n- Page Load Time: " ++ toString env.loadTimeMs ++
          "ms\n- DOM Content Loaded: " ++
          toString (env.navTiming.domContentLoadedEventEnd -
            env.navTiming.domContentLoadedEventStart) ++
          "ms\n- Load Complete: " ++
          toString (env.navTiming.loadEventEnd - env.navTiming.loadEventStart) ++
          "ms\n- First Paint: " ++ "N/A" ++
          "ms\n- First Contentful Paint: " ++ "N/A" ++ "ms") := by
  constructor
  · intro hip
    simp [getPageInfo, hl, hp, hg, hip]
  · intro hip hfp hfcp
    refine ⟨⟨evalPageInfo env.dom,
      mkPerfInfo env.loadTimeMs (computeMetrics env),
      mkPageInfoText args.url (evalPageInfo env.dom)
        (mkPerfInfo env.loadTimeMs (computeMetrics env))⟩, ?_, ?_⟩
    · simp [getPageInfo, hl, hp, hg, hip]
    · simp [mkPerfInfo, computeMetrics, hfp, hfcp, jsOrNA]

/-- An environment whose engine reports navigation timing but no paint
entries (as the non-default engines do). -/
def envNoPaint : BrowserEnv :=
  { page := okPage,
    navTiming := { domContentLoadedEventStart := 10, domContentLoadedEventEnd := 44,
                   loadEventStart := 50, loadEventEnd := 57 },
    paintEntries := [],
    loadTimeMs := 120 }

/-- C8 witness: over `envNoPaint`, `includePerformance = true` yields a
successful report whose paint lines read "N/A"; the theorem also covers
the `includePerformance = false` request shape. -/
theorem c8_performance_optional_w :
    envNoPaint.launchFails = none ∧ envNoPaint.newPageFails = none ∧
    envNoPaint.goto "http://localhost:3000" = .ok () ∧
    (((PageInfoArgs.includePerformance
        { url := "http://localhost:3000", includePerformance := true }) = false →
      getPageInfo envNoPaint { url := "http://localhost:3000", includePerformance := true } =
        (⟨1, 1⟩, .ok ⟨evalPageInfo envNoPaint.dom, "",
          mkPageInfoText "http://localhost:3000" (evalPageInfo envNoPaint.dom) ""⟩)) ∧
     ((PageInfoArgs.includePerformance
        { url := "http://localhost:3000", includePerformance := true }) = true →
      envNoPaint.paintEntries.find? (fun p => p.1 == "first-paint") = none →
      envNoPaint.paintEntries.find? (fun p => p.1 == "first-contentful-paint") = none →
      ∃ r : PageInfoReport,
        getPageInfo envNoPaint { url := "http://localhost:3000", includePerformance := true } =
          (⟨1, 1⟩, .ok r) ∧
        r.performanceInfo =
          "\n\nPerformance Metrics:\n- Page Load Time: " ++ toString envNoPaint.loadTimeMs ++
          "ms\n- DOM Content Loaded: " ++
          toString (envNoPaint.navTiming.domContentLoadedEventEnd -
            envNoPaint.navTiming.domContentLoadedEventStart) ++
          "ms\n- Load Complete: " ++
          toString (envNoPaint.navTiming.loadEventEnd - envNoPaint.navTiming.loadEventStart) ++
          "ms\n- First Paint: " ++ "N/A" ++
          "ms\n- First Contentful Paint: " ++ "N/A" ++ "ms")) :=
  ⟨rfl, rfl, rfl,
    c8_performance_optional envNoPaint
      { url := "http://localhost:3000", includePerformance := true } rfl rfl rfl⟩

/-! ## C10: headings restricted to h1-h3, metas need a name or property -/

/-- Spec-side predicate: the tag is one of the three heading levels the
snapshot keeps. -/
def isHeadingTag (s : String) : Bool :=
  s == "h1" || s == "h2" || s == "h3"

/-- Spec-side predicate: the meta element lacks both a name and a
property attribute (name empty; property undefined or empty). -/
def lacksNameAndProperty (m : MetaEl) : Bool :=
  m.name == "" && (m.property == none || m.property == some "")

/-- The selector-list query for `h1, h2, h3` keeps exactly the elements
satisfying the heading-tag predicate. -/
theorem contains_headingTags (s : String) :
    (["h1", "h2", "h3"] : List String).contains s = isHeadingTag s := by
  cases h1 : s == "h1" <;> cases h2 : s == "h2" <;> cases h3 : s == "h3" <;>
    simp [List.contains, List.elem, isHeadingTag, h1, h2, h3]

/-- The JS name fallback is empty exactly when the meta lacks both a name
and a property. -/
theorem jsMetaName_none_iff (m : MetaEl) :
    jsMetaName m = none ↔ lacksNameAndProperty m = true := by
  unfold jsMetaName lacksNameAndProperty
  by_cases hn : m.name = ""
  · cases hp : m.property with
    | none => simp [hn]
    | some p =>
      by_cases hpe : p = "" <;> simp [hn, hpe]
  · simp [hn]

/-- Dropping the metas with no surviving name is the same as filtering by
the lacks-both predicate first and then projecting the surviving name. -/
theorem metaTags_filter (metas : List MetaEl) :
    metas.filterMap (fun m => (jsMetaName m).map (fun n => (⟨n, m.content⟩ : MetaInfo))) =
    (metas.filter (fun m => !lacksNameAndProperty m)).map
      (fun m => ⟨(jsMetaName m).getD "", m.content⟩) := by
  induction metas with
  | nil => rfl
  | cons m ms ih =>
    rw [List.filterMap_cons, List.filter_cons]
    cases hj : jsMetaName m with
    | none =>
      have hl2 : lacksNameAndProperty m = true := (jsMetaName_none_iff m).mp hj
      simp [hj, hl2, ih]
    | some n =>
      have hl2 : lacksNameAndProperty m = false := by
        cases hx : lacksNameAndProperty m
        · rfl
        · exact absurd ((jsMetaName_none_iff m).mpr hx) (by simp [hj])
      simp [hj, hl2, ih]

/-- C10: the snapshot headings are exactly the document-order elements
whose tag is h1, h2 or h3 (lower-cased tag, trimmed text); no produced
heading has tag h4, h5 or h6; and the meta-tag list keeps exactly the
metas that carry a name or a property — one lacking both is excluded. -/
theorem c10_headings_and_meta (dom : Dom) :
    (evalPageInfo dom).headings =
      (dom.elements.filter (fun e => isHeadingTag e.tagName.toLower)).map
        (fun h => ⟨h.tagName.toLower, h.textContent.trim⟩) ∧
    ((evalPageInfo dom).headings.all
      (fun h => h.tag != "h4" && h.tag != "h5" && h.tag != "h6")) = true ∧
    (evalPageInfo dom).metaTags =
      (dom.metas.filter (fun m => !lacksNameAndProperty m)).map
        (fun m => ⟨(jsMetaName m).getD "", m.content⟩) := by
  refine ⟨?_, ?_, metaTags_filter dom.metas⟩
  · show (querySelectorAll dom ["h1", "h2", "h3"]).map _ = _
    unfold querySelectorAll
    congr 1
    exact List.filter_congr (fun e _ => contains_headingTags e.tagName.toLower)
  · rw [List.all_eq_true]
    intro h hmem
    simp only [evalPageInfo] at hmem
    obtain ⟨e, he, rfl⟩ := List.mem_map.mp hmem
    have h2 := (List.mem_filter.mp he).2
    rw [contains_headingTags] at h2
    simp only [isHeadingTag, Bool.or_eq_true, beq_iff_eq] at h2
    rcases h2 with (h2 | h2) | h2 <;> simp [h2]

/-- A document with one heading of each level h1-h6 and three metas: one
named, one with only a property, one with neither. -/
def domW : Dom :=
  { title := "T",
    href := "http://localhost:3000/",
    metas := [{ name := "description", content := "d" },
              { name := "", property := some "og:title", content := "t" },
              { name := "", property := none, content := "x" }],
    elements := [{ tagName := "H1", textContent := " a " },
                 { tagName := "H2", textContent := "b" },
                 { tagName := "H3", textContent := "c" },
                 { tagName := "H4", textContent := "d" },
                 { tagName := "H5", textContent := "e" },
                 { tagName := "H6", textContent := "f" }] }

/-- C10 witness: the concrete document keeps exactly its h1-h3 headings
and drops the meta lacking both name and property. -/
theorem c10_headings_and_meta_w :
    (evalPageInfo domW).headings =
      (domW.elements.filter (fun e => isHeadingTag e.tagName.toLower)).map
        (fun h => ⟨h.tagName.toLower, h.textContent.trim⟩) ∧
    ((evalPageInfo domW).headings.all
      (fun h => h.tag != "h4" && h.tag != "h5" && h.tag != "h6")) = true ∧
    (evalPageInfo domW).metaTags =
      (domW.metas.filter (fun m => !lacksNameAndProperty m)).map
        (fun m => ⟨(jsMetaName m).getD "", m.content⟩) :=
  c10_headings_and_meta domW

end WebScraper
